import Mathlib

/-!
Shallow embedding of the chat client in `src/App.tsx` (the version with
conversation management: `handleSend`, `loadConversations`,
`loadConversationById`, `handleRename`, `handleDeleteConversation`,
`renderBold` and the assistant bullet/paragraph splitter).

State updates performed through React setters are modelled as pure
functions from an `AppState` (the component's `useState` fields that the
handlers touch) to a new `AppState`.  Each handler additionally returns
the list of HTTP requests it issues.  The outcome of a `fetch` is a
parameter of the handler: a thrown network error, a resolved response
with `ok = false`, or a resolved `ok` response with a parsed JSON body.
-/

namespace UsuarioBot

/-- ECMAScript `\s` (WhiteSpace ∪ LineTerminator), used by the regexes
`/^\s*-\s+/` and by `String.prototype.trim`. -/
def jsWhitespace (c : Char) : Bool :=
  c = '\t' || c = '\n' || c = '\x0b' || c = '\x0c' || c = '\r' || c = ' ' ||
  c = '\u00a0' || c = '\u1680' ||
  c = '\u2000' || c = '\u2001' || c = '\u2002' || c = '\u2003' ||
  c = '\u2004' || c = '\u2005' || c = '\u2006' || c = '\u2007' ||
  c = '\u2008' || c = '\u2009' || c = '\u200a' ||
  c = '\u2028' || c = '\u2029' || c = '\u202f' || c = '\u205f' ||
  c = '\u3000' || c = '\ufeff'

/-- JavaScript `String.prototype.trim`: strip `\s` from both ends. -/
def jsTrim (s : String) : String :=
  String.mk (((s.data.dropWhile jsWhitespace).reverse.dropWhile jsWhitespace).reverse)

/-- A cited source `{file, pages}`. -/
structure Source where
  file : String
  pages : String
deriving DecidableEq, Repr

/-- `"user" | "assistant"`. -/
inductive Role where
  | user
  | assistant
deriving DecidableEq, Repr

/-- A transcript message; `sources?` is an optional field, so it is an
`Option` (`none` = the field is absent / `undefined`). -/
structure Message where
  role : Role
  content : String
  sources : Option (List Source) := none
deriving DecidableEq, Repr

/-- A sidebar entry `{id, title, created_at}` with nullable title. -/
structure ConversationSummary where
  id : String
  title : Option String
  created_at : String
deriving DecidableEq, Repr

/-- The state held by the `App` component that the modelled handlers
read or write (auth token, transcript, input box, busy flag, sidebar
list, active conversation id, rename-editing fields). -/
structure AppState where
  messages : List Message := []
  input : String := ""
  isLoading : Bool := false
  accessToken : Option String := none
  conversations : List ConversationSummary := []
  currentConversationId : Option String := none
  editingId : Option String := none
  editingTitle : String := ""
deriving DecidableEq, Repr

/-- Outcome of one `fetch`: the promise rejected (network error), or it
resolved with `ok = false`, or it resolved `ok` with parsed body `α`. -/
inductive FetchResult (α : Type) where
  | thrown
  | notOk
  | ok (data : α)
deriving DecidableEq, Repr

/-- An HTTP request issued by a handler, carrying exactly the data the
source puts in the URL and JSON body. -/
inductive Request where
  | chat (question : String) (conversation_id : Option String)
  | listConversations
  | getConversation (id : String)
  | putTitle (id : String) (title : String)
  | deleteConversation (id : String)
deriving DecidableEq, Repr

/-- Method and path of each request, read off the `fetch` calls. -/
def requestEndpoint : Request → String × String
  | .chat _ _ => ("POST", "/chat")
  | .listConversations => ("GET", "/conversations")
  | .getConversation id => ("GET", "/conversations/" ++ id)
  | .putTitle id _ => ("PUT", "/conversations/" ++ id ++ "/title")
  | .deleteConversation id => ("DELETE", "/conversations/" ++ id)

/-! ## renderBold -/

/-- One React node emitted by `renderBold`: a `<strong>` or a `<span>`. -/
inductive Span where
  | strong (text : String)
  | plain (text : String)
deriving DecidableEq, Repr

/-- The text inside a span. -/
def spanText : Span → String
  | .strong t => t
  | .plain t => t

/-- Try to match the regex `\*\*[^*]+\*\*` at the start of `cs`;
on success return the matched characters and the remainder. -/
def tryBoldAt : List Char → Option (List Char × List Char)
  | '*' :: '*' :: rest =>
    let run := rest.takeWhile (fun c => c ≠ '*')
    let after := rest.dropWhile (fun c => c ≠ '*')
    if run.isEmpty then none
    else
      match after with
      | '*' :: '*' :: rest2 => some ('*' :: '*' :: (run ++ ['*', '*']), rest2)
      | _ => none
  | _ => none

/-- Leftmost match of `\*\*[^*]+\*\*` in `cs`: the text before the
match, the match, and the remainder. -/
def findBold : List Char → Option (List Char × List Char × List Char)
  | [] => none
  | c :: cs =>
    match tryBoldAt (c :: cs) with
    | some (m, rest) => some ([], m, rest)
    | none => (findBold cs).map (fun pr => (c :: pr.1, pr.2.1, pr.2.2))

/-- `text.split(/(\*\*[^*]+\*\*)/g)`: pieces of text between matches,
with each captured match kept in the result.  `fuel` bounds the number
of matches; `splitBoldParts` supplies enough. -/
def splitBoldAux : Nat → List Char → List (List Char)
  | 0, cs => [cs]
  | fuel + 1, cs =>
    match findBold cs with
    | none => [cs]
    | some (p, m, r) => p :: m :: splitBoldAux fuel r

/-- `text.split(/(\*\*[^*]+\*\*)/g)` on the characters of the input. -/
def splitBoldParts (cs : List Char) : List (List Char) :=
  splitBoldAux cs.length cs

/-- `part.startsWith("**")` on characters. -/
def startsWithStars : List Char → Bool
  | '*' :: '*' :: _ => true
  | _ => false

/-- `part.endsWith("**")` on characters. -/
def endsWithStars (cs : List Char) : Bool :=
  startsWithStars cs.reverse

/-- `part.slice(2, -2)`: drop the first two and the last two
characters (empty when fewer than four remain). -/
def sliceBold (cs : List Char) : List Char :=
  ((cs.drop 2).reverse.drop 2).reverse

/-- `renderBold`: split on bold spans; a part that starts and ends with
`**` becomes `<strong>` with the delimiters sliced off, every other
part becomes a plain `<span>`. -/
def renderBold (text : String) : List Span :=
  (splitBoldParts text.data).map (fun part =>
    if startsWithStars part && endsWithStars part then
      Span.strong (String.mk (sliceBold part))
    else
      Span.plain (String.mk part))

/-! ## Assistant message line splitter -/

/-- Match the regex `^\s*-\s+` at the start of a line; on success
return the line with the matched prefix removed (what
`line.replace(/^\s*-\s+/, "")` yields). -/
def bulletStrip (l : String) : Option String :=
  match l.data.dropWhile jsWhitespace with
  | '-' :: rest =>
    match rest with
    | c :: _ =>
      if jsWhitespace c then some (String.mk (rest.dropWhile jsWhitespace))
      else none
    | [] => none
  | _ => none

/-- `content.split("\n")` on characters: `acc` holds the (reversed)
current line. -/
def splitNlAux (acc : List Char) : List Char → List String
  | [] => [String.mk acc.reverse]
  | c :: rest =>
    if c = '\n' then String.mk acc.reverse :: splitNlAux [] rest
    else splitNlAux (c :: acc) rest

/-- `content.split("\n")`. -/
def splitNl (content : String) : List String :=
  splitNlAux [] content.data

/-- The assistant renderer's line split: break the content on `"\n"`,
drop lines whose trim is empty, separate non-bullet lines (rendered as
paragraphs) from bullet lines (rendered as list items with the marker
stripped).  Returns `(otherLines, bulletLines-after-strip)`. -/
def splitAssistantContent (content : String) : List String × List String :=
  let lines := (splitNl content).filter (fun l => jsTrim l != "")
  let bulletLines := lines.filter (fun l => (bulletStrip l).isSome)
  let otherLines := lines.filter (fun l => !(bulletStrip l).isSome)
  (otherLines, bulletLines.map (fun l => (bulletStrip l).getD l))

/-- Left-to-right removal of every `**` occurrence: the input with the
doubled-asterisk delimiters removed (`text.replace("**", "")` with a
global flag). -/
def removePairedStars : List Char → List Char
  | '*' :: '*' :: rest => removePairedStars rest
  | c :: rest => c :: removePairedStars rest
  | [] => []

/-! ## Handlers -/

/-- Body of `loadConversations`: issue `GET /conversations`; on a
non-ok response return early, on a thrown error only log; on success
replace the sidebar list with `data.conversations ?? []`. -/
def loadConversations (s : AppState) (r : FetchResult (Option (List ConversationSummary))) :
    AppState × List Request :=
  (match r with
   | .thrown => s
   | .notOk => s
   | .ok data => { s with conversations := data.getD [] },
   [Request.listConversations])

/-- The parsed body of a successful `POST /chat` response:
`{answer, sources?, conversation_id?}`. -/
structure ChatResponse where
  answer : String
  sources : Option (List Source) := none
  conversation_id : Option String := none
deriving DecidableEq, Repr

/-- The fixed transcript entry appended when the chat call fails. -/
def chatErrorMessage : Message :=
  { role := Role.assistant, content := "Ha ocurrido un error llamando a la API." }

/-- `handleSend`.  `chatRes` is the outcome of the `POST /chat` fetch;
`listRes` is the outcome of the `GET /conversations` refresh performed
after a successful send.  Guard: an empty trimmed input, a pending
send, or a missing token returns without doing anything.  Otherwise
the trimmed question is appended optimistically as a user message, the
input box is cleared and the busy flag set; a non-ok response throws
into the same catch as a network error, which appends the fixed error
message; a successful response appends the assistant message (with
`sources ?? []`), adopts `conversation_id` when it is truthy (present
and non-empty), and refreshes the sidebar.  The busy flag is cleared
in `finally`. -/
def handleSend (s : AppState) (chatRes : FetchResult ChatResponse)
    (listRes : FetchResult (Option (List ConversationSummary))) :
    AppState × List Request :=
  let question := jsTrim s.input
  if question = "" ∨ s.isLoading = true ∨ s.accessToken = none then (s, [])
  else
    let userMsg : Message := { role := Role.user, content := question }
    let s1 := { s with messages := s.messages ++ [userMsg], input := "", isLoading := true }
    let req := Request.chat question s.currentConversationId
    match chatRes with
    | .ok data =>
      let assistantMsg : Message :=
        { role := Role.assistant, content := data.answer, sources := some (data.sources.getD []) }
      let s2 := { s1 with messages := s1.messages ++ [assistantMsg] }
      let s3 :=
        match data.conversation_id with
        | some cid => if cid = "" then s2 else { s2 with currentConversationId := some cid }
        | none => s2
      let (s4, reqs) := loadConversations s3 listRes
      ({ s4 with isLoading := false }, req :: reqs)
    | _ =>
      ({ s1 with messages := s1.messages ++ [chatErrorMessage], isLoading := false }, [req])

/-- The parsed body of a successful `GET /conversations/{id}` response:
`{conversation?}` where the conversation's `messages` field may itself
be absent. -/
structure ConversationPayload where
  id : String
  title : Option String := none
  created_at : String
  messages : Option (List Message) := none
deriving DecidableEq, Repr

/-- `loadConversationById`: no-op without a token; issue
`GET /conversations/{id}`; on a non-ok response return early, on a
thrown error only log; on success, only when `data.conversation?.messages`
is present (an empty list is a truthy array) replace the transcript
and set the active id, together. -/
def loadConversationById (s : AppState) (id : String)
    (r : FetchResult (Option ConversationPayload)) : AppState × List Request :=
  if s.accessToken = none then (s, [])
  else
    let req := Request.getConversation id
    match r with
    | .thrown => (s, [req])
    | .notOk => (s, [req])
    | .ok data =>
      match data with
      | none => (s, [req])
      | some conv =>
        match conv.messages with
        | none => (s, [req])
        | some msgs => ({ s with messages := msgs, currentConversationId := some id }, [req])

/-- `handleRename`: no-op without a token; an empty trimmed staged
title only exits edit mode, with no request.  Otherwise it issues
`PUT /conversations/{id}/title` and — the response's `ok` flag is never
inspected — unless the fetch throws, optimistically rewrites the local
title of the summary with that id; `finally` exits edit mode in every
case. -/
def handleRename (s : AppState) (id : String) (r : FetchResult Unit) :
    AppState × List Request :=
  if s.accessToken = none then (s, [])
  else
    let newTitle := jsTrim s.editingTitle
    if newTitle = "" then ({ s with editingId := none }, [])
    else
      let req := Request.putTitle id newTitle
      match r with
      | .thrown => ({ s with editingId := none }, [req])
      | _ =>
        ({ s with
            conversations :=
              s.conversations.map (fun c => if c.id = id then { c with title := some newTitle } else c),
            editingId := none }, [req])

/-- `handleDeleteConversation`: no-op without a token; issues
`DELETE /conversations/{id}` and — the response's `ok` flag is never
inspected — unless the fetch throws, removes the summary with that id
from the local list and, when that id is the active one, clears the
active id and the transcript. -/
def handleDeleteConversation (s : AppState) (id : String) (r : FetchResult Unit) :
    AppState × List Request :=
  if s.accessToken = none then (s, [])
  else
    let req := Request.deleteConversation id
    match r with
    | .thrown => (s, [req])
    | _ =>
      let s1 := { s with conversations := s.conversations.filter (fun c => c.id != id) }
      if s.currentConversationId = some id then
        ({ s1 with currentConversationId := none, messages := [] }, [req])
      else (s1, [req])

/-! ## Helper lemmas -/

/-- A conversation-list refresh never touches the transcript. -/
theorem loadConversations_fst_messages (s : AppState)
    (r : FetchResult (Option (List ConversationSummary))) :
    (loadConversations s r).1.messages = s.messages := by
  cases r <;> rfl

/-- A conversation-list refresh never touches the active id. -/
theorem loadConversations_fst_currentConversationId (s : AppState)
    (r : FetchResult (Option (List ConversationSummary))) :
    (loadConversations s r).1.currentConversationId = s.currentConversationId := by
  cases r <;> rfl

/-- A conversation-list refresh issues exactly `GET /conversations`. -/
theorem loadConversations_snd (s : AppState)
    (r : FetchResult (Option (List ConversationSummary))) :
    (loadConversations s r).2 = [Request.listConversations] := rfl

/-! ## Example data for witnesses and counterexamples -/

/-- A state ready to send: non-blank input, idle, authenticated, with
an active conversation `c1` in a two-entry sidebar. -/
def exampleSendState : AppState :=
  { messages := [{ role := Role.user, content := "hola" }],
    input := "  que dice el pdf  ",
    isLoading := false,
    accessToken := some "tok",
    conversations :=
      [{ id := "c1", title := some "old", created_at := "2024-01-01" },
       { id := "c2", title := none, created_at := "2024-01-02" }],
    currentConversationId := some "c1",
    editingId := none,
    editingTitle := "" }

/-- Like `exampleSendState` but with no active conversation. -/
def exampleFreshState : AppState :=
  { exampleSendState with currentConversationId := none }

/-- A state in the middle of renaming `c1` to a non-blank title. -/
def exampleRenameState : AppState :=
  { exampleSendState with editingId := some "c1", editingTitle := " nuevo " }

/-- A state in the middle of renaming `c1` to a whitespace-only title. -/
def exampleBlankRenameState : AppState :=
  { exampleSendState with editingId := some "c1", editingTitle := "   " }

/-- A successful chat body carrying a fresh conversation id. -/
def exampleChatResponse : ChatResponse :=
  { answer := "respuesta", sources := none, conversation_id := some "c9" }

/-- A full conversation payload for `c2` whose `messages` is present. -/
def exampleConversationPayload : ConversationPayload :=
  { id := "c2", title := none, created_at := "2024-01-02",
    messages := some [{ role := Role.assistant, content := "hola", sources := some [] }] }

/-! ## Claims -/

/-- C1: when a send passes the guard (non-blank trimmed input, not
busy, authenticated) and the chat fetch fails — thrown network error or
non-ok HTTP response — `handleSend` appends exactly the optimistic
user message followed by one assistant message whose content is the
fixed string "Ha ocurrido un error llamando a la API.", and leaves the
active conversation id unchanged. -/
theorem c1_failed_chat_appends_error (s : AppState) (chatRes : FetchResult ChatResponse)
    (listRes : FetchResult (Option (List ConversationSummary)))
    (hq : jsTrim s.input ≠ "") (hl : s.isLoading = false) (ht : s.accessToken ≠ none)
    (hfail : chatRes = FetchResult.thrown ∨ chatRes = FetchResult.notOk) :
    (handleSend s chatRes listRes).1.messages
      = s.messages ++
        [{ role := Role.user, content := jsTrim s.input },
         { role := Role.assistant, content := "Ha ocurrido un error llamando a la API." }]
    ∧ (handleSend s chatRes listRes).1.currentConversationId = s.currentConversationId := by
  rcases hfail with rfl | rfl <;>
    simp [handleSend, chatErrorMessage, hq, hl, ht]

/-- C1 witness: the theorem applied to a concrete failing send. -/
theorem c1_failed_chat_appends_error_witness :
    jsTrim exampleSendState.input ≠ "" ∧ exampleSendState.isLoading = false
    ∧ exampleSendState.accessToken ≠ none
    ∧ ((handleSend exampleSendState FetchResult.notOk FetchResult.notOk).1.messages
        = exampleSendState.messages ++
          [{ role := Role.user, content := jsTrim exampleSendState.input },
           { role := Role.assistant, content := "Ha ocurrido un error llamando a la API." }]
      ∧ (handleSend exampleSendState FetchResult.notOk FetchResult.notOk).1.currentConversationId
        = exampleSendState.currentConversationId) :=
  ⟨by decide, by decide, by decide,
   c1_failed_chat_appends_error exampleSendState FetchResult.notOk FetchResult.notOk
     (by decide) (by decide) (by decide) (Or.inr rfl)⟩

/-- C2: a delete whose fetch resolves (the `ok` flag is never read)
removes the summary with that id; when the id is the active one it
also clears the active id and the transcript, and when it is not, the
active id and transcript are untouched. -/
theorem c2_delete_conversation (s : AppState) (id : String) (r : FetchResult Unit)
    (ht : s.accessToken ≠ none) (hr : r ≠ FetchResult.thrown) :
    (s.currentConversationId = some id →
       (handleDeleteConversation s id r).1.conversations
         = s.conversations.filter (fun c => c.id != id)
       ∧ (handleDeleteConversation s id r).1.currentConversationId = none
       ∧ (handleDeleteConversation s id r).1.messages = [])
    ∧ (s.currentConversationId ≠ some id →
       (handleDeleteConversation s id r).1.currentConversationId = s.currentConversationId
       ∧ (handleDeleteConversation s id r).1.messages = s.messages) := by
  cases r with
  | thrown => exact absurd rfl hr
  | notOk =>
    constructor <;> intro h <;> simp [handleDeleteConversation, ht, h]
  | ok u =>
    constructor <;> intro h <;> simp [handleDeleteConversation, ht, h]

/-- C2 witness: deleting the active conversation `c1` of
`exampleSendState` empties the transcript and active id and drops the
`c1` summary. -/
theorem c2_delete_conversation_witness :
    exampleSendState.accessToken ≠ none
    ∧ (handleDeleteConversation exampleSendState "c1" (FetchResult.ok ())).1.conversations
        = [{ id := "c2", title := none, created_at := "2024-01-02" }]
    ∧ (handleDeleteConversation exampleSendState "c1" (FetchResult.ok ())).1.currentConversationId
        = none
    ∧ (handleDeleteConversation exampleSendState "c1" (FetchResult.ok ())).1.messages = [] := by
  have h :=
    (c2_delete_conversation exampleSendState "c1" (FetchResult.ok ())
        (by decide) (by decide)).1 (by decide)
  refine ⟨by decide, ?_, h.2.1, h.2.2⟩
  rw [h.1]
  decide

/-- C3: a send from a state with no active conversation whose response
carries a (truthy, i.e. non-empty) `conversation_id` adopts that id as
active, and the request list contains the `GET /conversations` refresh
issued afterwards. -/
theorem c3_new_conversation_adopted (s : AppState) (data : ChatResponse)
    (listRes : FetchResult (Option (List ConversationSummary))) (cid : String)
    (hq : jsTrim s.input ≠ "") (hl : s.isLoading = false) (ht : s.accessToken ≠ none)
    (_hcur : s.currentConversationId = none)
    (hcid : data.conversation_id = some cid) (hne : cid ≠ "") :
    (handleSend s (FetchResult.ok data) listRes).1.currentConversationId = some cid
    ∧ Request.listConversations ∈ (handleSend s (FetchResult.ok data) listRes).2 := by
  cases listRes <;>
    simp [handleSend, loadConversations, hq, hl, ht, hcid, hne]

/-- C3 witness: the theorem applied to a concrete fresh-conversation
send whose response assigns id `c9`. -/
theorem c3_new_conversation_adopted_witness :
    exampleFreshState.currentConversationId = none
    ∧ exampleChatResponse.conversation_id = some "c9"
    ∧ ((handleSend exampleFreshState (FetchResult.ok exampleChatResponse)
          FetchResult.notOk).1.currentConversationId = some "c9"
      ∧ Request.listConversations
          ∈ (handleSend exampleFreshState (FetchResult.ok exampleChatResponse)
              FetchResult.notOk).2) :=
  ⟨rfl, rfl,
   c3_new_conversation_adopted exampleFreshState exampleChatResponse FetchResult.notOk "c9"
     (by decide) (by decide) (by decide) rfl rfl (by decide)⟩

/-- C4: committing a rename whose staged title trims to the empty
string only exits edit mode: no request is issued and every other
state field — in particular the conversation list and its titles — is
unchanged. -/
theorem c4_rename_blank_title (s : AppState) (id : String) (r : FetchResult Unit)
    (ht : s.accessToken ≠ none) (hblank : jsTrim s.editingTitle = "") :
    handleRename s id r = ({ s with editingId := none }, []) := by
  simp [handleRename, ht, hblank]

/-- C4 witness: the theorem applied to a concrete whitespace-only
staged title. -/
theorem c4_rename_blank_title_witness :
    jsTrim exampleBlankRenameState.editingTitle = ""
    ∧ handleRename exampleBlankRenameState "c1" FetchResult.notOk
        = ({ exampleBlankRenameState with editingId := none }, []) :=
  ⟨by decide,
   c4_rename_blank_title exampleBlankRenameState "c1" FetchResult.notOk (by decide) (by decide)⟩

/-- C5 counterexample: the claim says a rename that gets a non-ok HTTP
response leaves the local title unchanged, but `handleRename` never
reads `res.ok`: renaming `c1` (old local title "old") with a non-ok
response still rewrites the local title to the trimmed staged title
"nuevo". -/
theorem c5_sidebar_failures_counterexample :
    (handleRename exampleRenameState "c1" FetchResult.notOk).1.conversations
      = [{ id := "c1", title := some "nuevo", created_at := "2024-01-01" },
         { id := "c2", title := none, created_at := "2024-01-02" }]
    ∧ (handleRename exampleRenameState "c1" FetchResult.notOk).1.conversations
      ≠ exampleRenameState.conversations := by
  decide

/-- C5 amended: a failed conversation-list load — thrown or non-ok —
leaves all state unchanged.  For rename and delete only a thrown
network error leaves local state in its prior form (rename still exits
edit mode); a non-ok HTTP response is not detected as a failure, so a
non-ok rename still rewrites the local title and a non-ok delete still
removes the summary from the local list. -/
theorem c5_sidebar_failures_amended (s : AppState) (id : String)
    (r : FetchResult (Option (List ConversationSummary))) :
    ((r = FetchResult.thrown ∨ r = FetchResult.notOk) → (loadConversations s r).1 = s)
    ∧ (handleRename s id FetchResult.thrown).1.conversations = s.conversations
    ∧ (handleDeleteConversation s id FetchResult.thrown).1 = s
    ∧ (s.accessToken ≠ none → jsTrim s.editingTitle ≠ "" →
        (handleRename s id FetchResult.notOk).1.conversations
          = s.conversations.map
              (fun c => if c.id = id then { c with title := some (jsTrim s.editingTitle) } else c))
    ∧ (s.accessToken ≠ none →
        (handleDeleteConversation s id FetchResult.notOk).1.conversations
          = s.conversations.filter (fun c => c.id != id)) := by
  refine ⟨?_, ?_, ?_, ?_, ?_⟩
  · rintro (rfl | rfl) <;> rfl
  · by_cases ht : s.accessToken = none
    · simp [handleRename, ht]
    · by_cases hb : jsTrim s.editingTitle = "" <;> simp [handleRename, ht, hb]
  · by_cases ht : s.accessToken = none <;> simp [handleDeleteConversation, ht]
  · intro ht hb
    simp [handleRename, ht, hb]
  · intro ht
    by_cases hc : s.currentConversationId = some id <;>
      simp [handleDeleteConversation, ht, hc]

/-- C5 amended witness: the theorem applied to `exampleRenameState`;
the non-ok rename conjunct evaluates to the concretely retitled list. -/
theorem c5_sidebar_failures_amended_witness :
    (loadConversations exampleRenameState FetchResult.notOk).1 = exampleRenameState
    ∧ (handleRename exampleRenameState "c1" FetchResult.thrown).1.conversations
        = exampleRenameState.conversations
    ∧ (handleDeleteConversation exampleRenameState "c1" FetchResult.thrown).1
        = exampleRenameState
    ∧ (handleRename exampleRenameState "c1" FetchResult.notOk).1.conversations
        = [{ id := "c1", title := some "nuevo", created_at := "2024-01-01" },
           { id := "c2", title := none, created_at := "2024-01-02" }]
    ∧ (handleDeleteConversation exampleRenameState "c1" FetchResult.notOk).1.conversations
        = [{ id := "c2", title := none, created_at := "2024-01-02" }] := by
  have h := c5_sidebar_failures_amended exampleRenameState "c1" FetchResult.notOk
  refine ⟨h.1 (Or.inr rfl), h.2.1, h.2.2.1, ?_, ?_⟩
  · rw [h.2.2.2.1 (by decide) (by decide)]
    decide
  · rw [h.2.2.2.2 (by decide)]
    decide

/-- C6: whenever a send issues a chat request, that request is a
`POST /chat` whose body carries exactly the trimmed input as the
question and the state's active conversation id (`none` = JSON null)
as `conversation_id`. -/
theorem c6_chat_request_shape (s : AppState) (chatRes : FetchResult ChatResponse)
    (listRes : FetchResult (Option (List ConversationSummary)))
    (q : String) (cid : Option String)
    (hmem : Request.chat q cid ∈ (handleSend s chatRes listRes).2) :
    q = jsTrim s.input ∧ cid = s.currentConversationId
    ∧ requestEndpoint (Request.chat q cid) = ("POST", "/chat") := by
  by_cases hg : jsTrim s.input = "" ∨ s.isLoading = true ∨ s.accessToken = none
  · rw [handleSend, if_pos hg] at hmem
    simp at hmem
  · cases chatRes with
    | ok data =>
      rw [handleSend, if_neg hg] at hmem
      simp [loadConversations] at hmem
      rcases hmem with ⟨hq, hc⟩
      exact ⟨hq, hc, rfl⟩
    | thrown =>
      rw [handleSend, if_neg hg] at hmem
      simp at hmem
      exact ⟨hmem.1, hmem.2, rfl⟩
    | notOk =>
      rw [handleSend, if_neg hg] at hmem
      simp at hmem
      exact ⟨hmem.1, hmem.2, rfl⟩

/-- C6 witness: the theorem applied to the chat request of a concrete
send (trimmed question "que dice el pdf", active id `c1`). -/
theorem c6_chat_request_shape_witness :
    Request.chat "que dice el pdf" (some "c1")
      ∈ (handleSend exampleSendState FetchResult.notOk FetchResult.notOk).2
    ∧ ("que dice el pdf" = jsTrim exampleSendState.input
      ∧ some "c1" = exampleSendState.currentConversationId
      ∧ requestEndpoint (Request.chat "que dice el pdf" (some "c1")) = ("POST", "/chat")) :=
  ⟨by decide,
   c6_chat_request_shape exampleSendState FetchResult.notOk FetchResult.notOk
     "que dice el pdf" (some "c1") (by decide)⟩

/-- C7: the assistant line splitter on "A\n- B\n- C\nD" yields the
paragraph lines ["A", "D"] and the bullet list ["B", "C"], in order,
with the dash marker stripped from each bullet. -/
theorem c7_line_splitter :
    splitAssistantContent "A\n- B\n- C\nD" = (["A", "D"], ["B", "C"]) := by
  decide

/-- C8: `renderBold` on "**x** y **z**" emits (besides two boundary
spans that carry no text, an artifact of `String.split` with a capture
group) the emphasized span "x", the plain span " y " and the
emphasized span "z", in order, and the concatenation of all emitted
span texts is the input with the `**` delimiters removed. -/
theorem c8_render_bold :
    renderBold "**x** y **z**"
      = [Span.plain "", Span.strong "x", Span.plain " y ", Span.strong "z", Span.plain ""]
    ∧ (renderBold "**x** y **z**").filter (fun sp => spanText sp != "")
      = [Span.strong "x", Span.plain " y ", Span.strong "z"]
    ∧ String.join ((renderBold "**x** y **z**").map spanText)
      = String.mk (removePairedStars ("**x** y **z**".data)) := by
  decide

/-- C9: selecting a conversation replaces the transcript and the
active id together from the fetched payload, and any failed or partial
fetch — thrown, non-ok, a body without `conversation`, or a
conversation without `messages` — leaves both exactly as they were. -/
theorem c9_switch_consistency (s : AppState) (id : String)
    (r : FetchResult (Option ConversationPayload)) :
    (∀ conv msgs, r = FetchResult.ok (some conv) → conv.messages = some msgs →
        s.accessToken ≠ none →
        (loadConversationById s id r).1.messages = msgs
        ∧ (loadConversationById s id r).1.currentConversationId = some id)
    ∧ ((r = FetchResult.thrown ∨ r = FetchResult.notOk ∨ r = FetchResult.ok none
        ∨ (∃ conv, r = FetchResult.ok (some conv) ∧ conv.messages = none)) →
        (loadConversationById s id r).1.messages = s.messages
        ∧ (loadConversationById s id r).1.currentConversationId = s.currentConversationId) := by
  constructor
  · rintro conv msgs rfl hm ht
    simp [loadConversationById, ht, hm]
  · intro hfail
    by_cases ht : s.accessToken = none
    · simp [loadConversationById, ht]
    · rcases hfail with rfl | rfl | rfl | ⟨conv, rfl, hm⟩
      · simp [loadConversationById, ht]
      · simp [loadConversationById, ht]
      · simp [loadConversationById, ht]
      · simp [loadConversationById, ht, hm]

/-- C9 witness: the theorem applied to a successful fetch of `c2`
whose payload carries a one-message transcript. -/
theorem c9_switch_consistency_witness :
    exampleConversationPayload.messages
      = some [{ role := Role.assistant, content := "hola", sources := some [] }]
    ∧ ((loadConversationById exampleSendState "c2"
          (FetchResult.ok (some exampleConversationPayload))).1.messages
        = [{ role := Role.assistant, content := "hola", sources := some [] }]
      ∧ (loadConversationById exampleSendState "c2"
          (FetchResult.ok (some exampleConversationPayload))).1.currentConversationId
        = some "c2") :=
  ⟨rfl,
   (c9_switch_consistency exampleSendState "c2"
       (FetchResult.ok (some exampleConversationPayload))).1
     exampleConversationPayload
     [{ role := Role.assistant, content := "hola", sources := some [] }]
     rfl rfl (by decide)⟩

/-- C10: a successful send appends the user message and an assistant
message built with `sources ?? []`, so every assistant message a send
appends has a present `sources` field (the empty list when the
response omitted it), never an absent one. -/
theorem c10_assistant_sources_present (s : AppState) (data : ChatResponse)
    (listRes : FetchResult (Option (List ConversationSummary)))
    (hq : jsTrim s.input ≠ "") (hl : s.isLoading = false) (ht : s.accessToken ≠ none) :
    (handleSend s (FetchResult.ok data) listRes).1.messages
      = s.messages ++
        [{ role := Role.user, content := jsTrim s.input },
         { role := Role.assistant, content := data.answer,
           sources := some (data.sources.getD []) }]
    ∧ ∀ m ∈ ((handleSend s (FetchResult.ok data) listRes).1.messages).drop s.messages.length,
        m.role = Role.assistant → m.sources.isSome := by
  have hmsg : (handleSend s (FetchResult.ok data) listRes).1.messages
      = s.messages ++
        [{ role := Role.user, content := jsTrim s.input },
         { role := Role.assistant, content := data.answer,
           sources := some (data.sources.getD []) }] := by
    cases listRes <;>
      rcases hc : data.conversation_id with _ | cid <;>
        simp [handleSend, loadConversations, hq, hl, ht, hc] <;>
          by_cases he : cid = "" <;> simp [he]
  refine ⟨hmsg, ?_⟩
  rw [hmsg, List.drop_left]
  intro m hmem hrole
  rcases List.mem_cons.mp hmem with rfl | hmem2
  · simp at hrole
  · rcases List.mem_cons.mp hmem2 with rfl | hmem3
    · rfl
    · simp at hmem3

/-- C10 witness: the theorem applied to a concrete successful send
whose response omits `sources`; the appended assistant message carries
`sources = some []`. -/
theorem c10_assistant_sources_present_witness :
    jsTrim exampleSendState.input ≠ ""
    ∧ (handleSend exampleSendState
        (FetchResult.ok { answer := "respuesta" }) FetchResult.notOk).1.messages
      = exampleSendState.messages ++
        [{ role := Role.user, content := jsTrim exampleSendState.input },
         { role := Role.assistant, content := "respuesta", sources := some [] }] :=
  ⟨by decide,
   (c10_assistant_sources_present exampleSendState { answer := "respuesta" }
       FetchResult.notOk (by decide) (by decide) (by decide)).1⟩

end UsuarioBot
